import Mathlib

/-!
Shallow embedding of the TruthLens implication-chain engine
(repository `truthlens_mumbai_hacks`).

The Python sources embedded here are:
  * `agents/critic/tools/implication_chains.py` (normalization, similarity,
    modality classification, claim matching, evidence aggregation, verdict
    assignment, chain assembly),
  * `agents/critic/tools/critic_tool.py` (`run_critic`),
  * `agents/pattern_analyzer/tools/firecrawl_pattern_analyzer.py`
    (batching loop of `run_pattern_analyzer`),
  * `memory/pattern_analysis_store.py` (`PatternAnalysisMemory`),
  * `memory/critic_store.py` (`CriticMemory`).

Modelling conventions:
  * Python `str` is `String`, `Optional[str]` is `Option String`.
  * Python floats only ever hold exact ratios of small naturals here
    (an intersection count divided by a set size, compared against `0.3`),
    so similarities are modelled with `ℚ`; `mkRat` is used for the division
    so that terms evaluate, and is related to `/` in the theorems.
  * String traversal (lowercasing, splitting, substring search, stripping)
    is implemented by structural recursion over `String.data` so that every
    definition evaluates inside the kernel.
  * External network calls (Gemini generation, Firecrawl extraction) are
    modelled by explicit outcome datatypes passed in as parameters, with one
    constructor per branch of the Python error handling.
-/

namespace TruthLens

/-- Python `str.strip()`: drop leading and trailing whitespace. -/
def pyStrip (s : String) : String :=
  String.mk (((s.data.dropWhile Char.isWhitespace).reverse.dropWhile
    Char.isWhitespace).reverse)

/-- Does the character list start with the given pattern? -/
def charsStartWith : List Char → List Char → Bool
  | _, [] => true
  | [], _ :: _ => false
  | c :: cs, n :: ns => c = n && charsStartWith cs ns

/-- Does the pattern occur as a contiguous sublist? -/
def charsContain : List Char → List Char → Bool
  | [], needle => needle.isEmpty
  | c :: cs, needle => charsStartWith (c :: cs) needle || charsContain cs needle

/-- Python `needle in hay` substring test. -/
def strContains (hay needle : String) : Bool :=
  charsContain hay.data needle.data

/-- Splitting on whitespace runs, Python `str.split()` (no empty words);
`acc` holds the current in-progress word, reversed. -/
def splitWordsAux : List Char → List Char → List String
  | [], acc => if acc = [] then [] else [String.mk acc.reverse]
  | c :: cs, acc =>
    if c.isWhitespace then
      if acc = [] then splitWordsAux cs []
      else String.mk acc.reverse :: splitWordsAux cs []
    else splitWordsAux cs (c :: acc)

/-- `_normalize_text` (implication_chains.py, lines 128-129):
`t.lower().replace(",", " ").replace(".", " ").split()`. -/
def _normalize_text (t : String) : List String :=
  splitWordsAux
    ((t.data.map Char.toLower).map fun c => if c = ',' ∨ c = '.' then ' ' else c)
    []

/-- `_jaccard_similarity` (implication_chains.py, lines 132-139): despite the
name, intersection size divided by the size of the FIRST argument's word set
(Python `inter / float(len(sa))`, written with `mkRat` so it evaluates). -/
def _jaccard_similarity (a_words b_words : List String) : ℚ :=
  if a_words = [] ∨ b_words = [] then 0
  else
    let sa := a_words.dedup
    let sb := b_words.dedup
    let inter := (sa.filter fun w => decide (w ∈ sb)).length
    if inter = 0 then 0 else mkRat inter sa.length

/-- Keyword family for `denial` (implication_chains.py, line 151). -/
def denial_keywords : List String :=
  ["denies", "denied", "refutes", "refuted", "false"]

/-- Keyword family for `affirmation` (implication_chains.py, line 153). -/
def affirmation_keywords : List String :=
  ["reports", "reported", "claims", "claimed", "alleges", "stated"]

/-- Keyword family for `speculation` (implication_chains.py, line 155). -/
def speculation_keywords : List String :=
  ["alleged", "allegedly", "suggests", "may", "might", "possibly"]

/-- `_classify_modality` (implication_chains.py, lines 142-158).  Python
`if not modality: return None` is true for both `None` and the empty string. -/
def _classify_modality : Option String → Option String
  | none => none
  | some modality =>
    if modality = "" then none
    else
      let m := String.mk (modality.data.map Char.toLower)
      if denial_keywords.any (fun k => strContains m k) then some "denial"
      else if affirmation_keywords.any (fun k => strContains m k) then
        some "affirmation"
      else if speculation_keywords.any (fun k => strContains m k) then
        some "speculation"
      else some "speculation"

/-- The similarity threshold `0.3` used at every call site of
`_check_claim_support`. -/
def default_similarity_threshold : ℚ := mkRat 3 10

/-- `Claim` (pattern_analyzer_schema.py, lines 74-83). -/
structure Claim where
  text : String
  modality : Option String
  blame_target : Option String
  evidence : Option String
deriving DecidableEq, Repr

/-- Similarity of a claim's text against already-normalized target words. -/
def simOf (target_words : List String) (c : Claim) : ℚ :=
  _jaccard_similarity target_words (_normalize_text c.text)

/-- Body of the `for claim in key_claims` loop of `_check_claim_support`
(implication_chains.py, lines 177-184), one step of the fold over claims.
State is `(best_sim, best_modality)`. -/
def matchStep (target_words : List String) (similarity_threshold : ℚ)
    (acc : ℚ × Option String) (claim : Claim) : ℚ × Option String :=
  let sim := simOf target_words claim
  if similarity_threshold ≤ sim ∧ acc.1 < sim then
    match _classify_modality claim.modality with
    | some classified => (sim, some classified)
    | none => acc
  else acc

/-- `_check_claim_support` (implication_chains.py, lines 161-186); the
`similarity_threshold` is `0.3` at every call site. -/
def _check_claim_support (key_claims : List Claim) (target_text : String)
    (similarity_threshold : ℚ) : Option String :=
  let target_words := _normalize_text target_text
  if target_words = [] then none
  else
    (key_claims.foldl (matchStep target_words similarity_threshold)
      (0, none)).2

/-- A claim is eligible for selection by `_check_claim_support` when it
clears the similarity threshold AND its modality classifies to something
(the code only commits a claim whose `_classify_modality` is non-`None`). -/
def eligibleClaim (target_words : List String) (similarity_threshold : ℚ)
    (c : Claim) : Bool :=
  decide (similarity_threshold ≤ simOf target_words c) &&
    (_classify_modality c.modality).isSome

/-- Reference selector, following the spec's words: the claim with the
highest similarity, ties broken by encounter order (the first one wins). -/
def firstMaxBySim (target_words : List String) :
    List Claim → Option Claim
  | [] => none
  | c :: rest =>
    match firstMaxBySim target_words rest with
    | none => some c
    | some y =>
      if simOf target_words c < simOf target_words y then some y else some c

/-- `ArticleAnalysis` (pattern_analyzer_schema.py, lines 86-106). -/
structure ArticleAnalysis where
  url : String
  source_name : Option String
  publish_date : Option String
  source_type : Option String
  title : Option String
  source_country : Option String
  source_class : Option String
  key_claims : List Claim
  narrative_summary : Option String
  statistics : Option String
  stance : Option String
  bias_indicators : Option String
deriving DecidableEq, Repr

/-- `PatternAnalysisResult` (pattern_analyzer_schema.py, lines 111-113). -/
structure PatternAnalysisResult where
  statement : String
  analyzed_articles : List ArticleAnalysis
deriving DecidableEq, Repr

/-- `ImplicationStep` (critic_schema.py, lines 8-25). -/
structure ImplicationStep where
  premise : String
  conclusion : String
  supporting_sources : List String
  refuting_sources : List String
  assessment : String
deriving DecidableEq, Repr

/-- `ImplicationChain` (critic_schema.py, lines 28-36). -/
structure ImplicationChain where
  description : String
  steps : List ImplicationStep
  overall_assessment : String
  notes : Option String
deriving DecidableEq, Repr

/-- One cleaned candidate implication pair: a dict with keys
`premise`, `consequence`, `reasoning` (implication_chains.py, line 117). -/
structure Candidate where
  premise : String
  consequence : String
  reasoning : String
deriving DecidableEq, Repr

/-- The vote dict `{"affirmation": _, "denial": _, "speculation": _}`
(implication_chains.py, lines 224-225). -/
structure ModalityVotes where
  affirmation : Nat
  denial : Nat
  speculation : Nat
deriving DecidableEq, Repr

/-- `premise_votes[p_mod] += 1` guarded by `if p_mod:`
(implication_chains.py, lines 235-238); `_check_claim_support` only ever
returns the three keys of the dict, so no other case can arise. -/
def bumpVotes (v : ModalityVotes) : Option String → ModalityVotes
  | some "affirmation" => { v with affirmation := v.affirmation + 1 }
  | some "denial" => { v with denial := v.denial + 1 }
  | some "speculation" => { v with speculation := v.speculation + 1 }
  | _ => v

/-- `src_label = art.url or (art.source_name or "unknown_source")`
(implication_chains.py, line 241); Python `or` takes the right operand on
an empty string or `None`. -/
def src_label (art : ArticleAnalysis) : String :=
  if art.url ≠ "" then art.url
  else
    match art.source_name with
    | some n => if n ≠ "" then n else "unknown_source"
    | none => "unknown_source"

/-- The chain-level verdict policy (implication_chains.py, lines 252-276),
returning `(overall, step_assessment)`. -/
def assign_verdict (supporting_sources refuting_sources : List String)
    (premise_votes : ModalityVotes) : String × String :=
  if 1 < supporting_sources.length ∧ refuting_sources = [] then
    ("consistent",
      "well supported by multiple sources with no clear refutations")
  else if supporting_sources.length = 1 ∧ refuting_sources = [] then
    ("partially supported", "weakly supported (single-source implication)")
  else if refuting_sources ≠ [] then
    ("contradicted",
      "contested: at least one source affirms the premise but denies the consequence")
  else if premise_votes.affirmation < premise_votes.denial then
    ("contradicted", "premise itself appears more often denied than affirmed")
  else
    ("speculative",
      "inferred only by LLM, with no strong article-level corroboration")

/-- Accumulated state of the `for art in articles` loop
(implication_chains.py, lines 224-249). -/
structure AggState where
  premise_votes : ModalityVotes
  conseq_votes : ModalityVotes
  supporting_sources : List String
  refuting_sources : List String
deriving DecidableEq, Repr

/-- Initial aggregation state (implication_chains.py, lines 224-228). -/
def initAgg : AggState := ⟨⟨0, 0, 0⟩, ⟨0, 0, 0⟩, [], []⟩

/-- One iteration of the `for art in articles` loop of
`build_implication_chains_tool` (implication_chains.py, lines 231-249). -/
def aggregate_article (premise_text conseq_text : String) (st : AggState)
    (art : ArticleAnalysis) : AggState :=
  let p_mod := _check_claim_support art.key_claims premise_text
    default_similarity_threshold
  let c_mod := _check_claim_support art.key_claims conseq_text
    default_similarity_threshold
  let pv := bumpVotes st.premise_votes p_mod
  let cv := bumpVotes st.conseq_votes c_mod
  let label := src_label art
  let supp :=
    if p_mod = some "affirmation" ∧
        (c_mod = some "affirmation" ∨ c_mod = some "speculation") then
      st.supporting_sources ++ [label]
    else st.supporting_sources
  let refu :=
    if p_mod = some "affirmation" ∧ c_mod = some "denial" then
      st.refuting_sources ++ [label]
    else st.refuting_sources
  ⟨pv, cv, supp, refu⟩

/-- Python `repr` of a vote dict, used in the `notes` field
(implication_chains.py, lines 287-290). -/
def votesRepr (v : ModalityVotes) : String :=
  "\x7b\x27affirmation\x27: " ++ toString v.affirmation ++
    ", \x27denial\x27: " ++ toString v.denial ++
    ", \x27speculation\x27: " ++ toString v.speculation ++ "\x7d"

/-- Body of the `for idx, cand in enumerate(candidates, start=1)` loop
(implication_chains.py, lines 219-298): aggregate evidence, assign the
verdict, and assemble the single-step chain. -/
def build_chain (articles : List ArticleAnalysis) (idx : Nat)
    (cand : Candidate) : ImplicationChain :=
  let agg := articles.foldl
    (aggregate_article cand.premise cand.consequence) initAgg
  let verdict := assign_verdict agg.supporting_sources agg.refuting_sources
    agg.premise_votes
  { description := "Implication chain " ++ toString idx ++ ": " ++
      cand.premise ++ " -> " ++ cand.consequence
    steps := [{ premise := cand.premise
                conclusion := cand.consequence
                supporting_sources := agg.supporting_sources
                refuting_sources := agg.refuting_sources
                assessment := verdict.2 }]
    overall_assessment := verdict.1
    notes := some ("LLM reasoning: " ++ cand.reasoning ++
      ". Premise votes: " ++ votesRepr agg.premise_votes ++
      ". Consequence votes: " ++ votesRepr agg.conseq_votes ++ ".") }

/-- The enumerated loop over candidates, `idx` starting at 1. -/
def build_chains_from (articles : List ArticleAnalysis) (idx : Nat) :
    List Candidate → List ImplicationChain
  | [] => []
  | cand :: rest =>
    build_chain articles idx cand :: build_chains_from articles (idx + 1) rest

/-- The dict `{"statement": ..., "implication_chains": [...]}` returned by
`build_implication_chains_tool`. -/
structure ChainsPayload where
  statement : String
  implication_chains : List ImplicationChain
deriving DecidableEq, Repr

/-- `build_implication_chains_tool` (implication_chains.py, lines 192-303),
parameterized by the pattern-analysis result loaded from memory and by the
candidate list produced by `_generate_implication_candidates`. -/
def build_implication_chains_tool (pa : PatternAnalysisResult)
    (candidates : List Candidate) : ChainsPayload :=
  if candidates = [] then
    { statement := pa.statement, implication_chains := [] }
  else
    { statement := pa.statement
      implication_chains := build_chains_from pa.analyzed_articles 1 candidates }

/-- One element of the JSON array returned by the generation call, after
`json.loads`: either not a dict (skipped, implication_chains.py lines
110-111) or a dict whose `premise` / `consequence` / `reasoning` values are
shown here already `str()`-coerced (a missing key yields `""`). -/
inductive GenItem where
  | nonDict
  | entry (premise consequence reasoning : String)
deriving DecidableEq, Repr

/-- Outcome of the external Gemini call inside the `try` block of
`_generate_implication_candidates` (implication_chains.py, lines 94-122). -/
inductive GenOutcome where
  | callError
  | unparseable
  | nonList
  | parsedList (items : List GenItem)
deriving DecidableEq, Repr

/-- The per-item cleaning step (implication_chains.py, lines 108-118):
keep dicts whose stripped `premise` and `consequence` are non-empty. -/
def cleanCandidate : GenItem → Option Candidate
  | .nonDict => none
  | .entry p c r =>
    let prem := pyStrip p
    let cons := pyStrip c
    let reas := pyStrip r
    if prem ≠ "" ∧ cons ≠ "" then some ⟨prem, cons, reas⟩ else none

/-- `_generate_implication_candidates` (implication_chains.py, lines
45-122), with the network call modelled by a `GenOutcome` parameter and the
`GOOGLE_API_KEY` environment variable by `api_key` (Python `if not api_key`
is true for `None` and for the empty string). -/
def _generate_implication_candidates (pa : PatternAnalysisResult)
    (api_key : Option String) (llm : GenOutcome) : List Candidate :=
  let summaries := pa.analyzed_articles.filterMap fun art =>
    match art.narrative_summary with
    | some s => if s ≠ "" then some s else none
    | none => none
  if summaries = [] then []
  else
    match api_key with
    | none => []
    | some k =>
      if k = "" then []
      else
        match llm with
        | .callError => []
        | .unparseable => []
        | .nonList => []
        | .parsedList items => items.filterMap cleanCandidate

/-- Phases 1 and 2 of `build_implication_chains_tool` chained together
(implication_chains.py, lines 208-215 feed line 212's candidates into the
loop): generation followed by chain building. -/
def build_implication_chains_pipeline (pa : PatternAnalysisResult)
    (api_key : Option String) (llm : GenOutcome) : ChainsPayload :=
  build_implication_chains_tool pa
    (_generate_implication_candidates pa api_key llm)

/-- `CriticResult` (critic_schema.py, lines 75-90); the three extension
slots hold free-form records this core never populates, so their element
types are left abstract as strings. -/
structure CriticResult where
  statement : String
  high_level_summary : String
  implication_chains : List ImplicationChain
  claim_consensus : List String
  narrative_phases : List String
  gaps_and_caveats : List String
deriving DecidableEq, Repr

/-- The summary text chosen by `run_critic` (critic_tool.py, lines 91-102). -/
def critic_high_level_summary (implication_chains : List ImplicationChain) :
    String :=
  if implication_chains ≠ [] then
    "This analysis identifies one or more chains of implications between claims found in the analyzed articles and evaluates how well each step is supported by the available sources. Other USP sections (claim consensus, temporal phases, gaps) are not yet computed in this version."
  else
    "No clear implication chains were detected from the narrative summaries of the analyzed articles. Other USP sections are not yet computed."

/-- `run_critic` (critic_tool.py, lines 59-118), parameterized like the
tool; re-parsing each chain dict through `ImplicationChain(**c)` is the
identity on well-formed dumps, so the chains are passed through unchanged. -/
def run_critic (pa : PatternAnalysisResult) (api_key : Option String)
    (llm : GenOutcome) : CriticResult :=
  let chains_payload := build_implication_chains_pipeline pa api_key llm
  let implication_chains := chains_payload.implication_chains
  { statement := pa.statement
    high_level_summary := critic_high_level_summary implication_chains
    implication_chains := implication_chains
    claim_consensus := []
    narrative_phases := []
    gaps_and_caveats := [] }

/-- `CriticMemory.save_result` (critic_store.py, lines 38-50): the store is
cleared and the result saved keyed by its raw statement, so the store after
a save is the one-entry dict `{result.statement: result}`. -/
def CriticMemory.save_result (result : CriticResult) :
    List (String × CriticResult) :=
  [(result.statement, result)]

end TruthLens

namespace TruthLens

/-- The JSON-dict store of `PatternAnalysisMemory`, as a key-to-record map. -/
def PatternStore : Type := String → Option PatternAnalysisResult

namespace PatternAnalysisMemory

/-- `PatternAnalysisMemory._statement_key` (pattern_analysis_store.py,
lines 44-46): the SHA-256 hex digest of the stripped statement.  The hash
itself is an arbitrary fixed pure function of the stripped statement, so it
is a parameter `h` here; every theorem below holds for any `h`, in
particular for SHA-256. -/
def statement_key (h : String → String) (statement : String) : String :=
  h (pyStrip statement)

/-- `PatternAnalysisMemory.save_result` (pattern_analysis_store.py, lines
48-52): `store[key] = result.model_dump()`. -/
def save_result (h : String → String) (store : PatternStore)
    (result : PatternAnalysisResult) : PatternStore :=
  fun k => if k = statement_key h result.statement then some result else store k

/-- `PatternAnalysisMemory.get_result_by_statement`
(pattern_analysis_store.py, lines 54-63).  A stored dump is a non-empty
dict that round-trips through `model_validate`, so the falsy-dict check and
the re-validation are the identity on anything `save_result` wrote. -/
def get_result_by_statement (h : String → String) (store : PatternStore)
    (statement : String) : Option PatternAnalysisResult :=
  store (statement_key h statement)

end PatternAnalysisMemory

end TruthLens

namespace TruthLens

/-- `SourceInfo` (fact_finder_schema.py, lines 5-18). -/
structure SourceInfo where
  title : Option String
  url : String
  description : Option String
  source_name : Option String
  publish_date : Option String
  source_type : String
  source_class : Option String
  source_country : Option String
  historical_verdicts : Option String
deriving DecidableEq, Repr

/-- `ExtractClaim` (pattern_analyzer_schema.py, lines 13-28). -/
structure ExtractClaim where
  text : String
  blame_target : Option String
  modality : Option String
  evidence : Option String
deriving DecidableEq, Repr

/-- `ExtractArticle` (pattern_analyzer_schema.py, lines 31-54). -/
structure ExtractArticle where
  title : String
  source_url : String
  statistics : String
  narrative_summary : String
  key_claims : ExtractClaim
  stance : Option String
  bias_indication : Option String
deriving DecidableEq, Repr

/-- Outcome of one batch's Firecrawl interaction in `run_pattern_analyzer`
(firecrawl_pattern_analyzer.py): one constructor per `continue` branch of
lines 194-230, plus the validated `extract.result` list on success. -/
inductive BatchOutcome where
  | startError
  | pollTimeout
  | pollError
  | dataNotDict
  | validationError
  | completed (extract_result : List ExtractArticle)
deriving DecidableEq, Repr

/-- Every outcome except a completed extraction. -/
def BatchOutcome.isFailure : BatchOutcome → Bool
  | .completed _ => false
  | _ => true

/-- One batch: its slice of the textual sources together with the outcome
of its extraction job. -/
structure Batch where
  batch_sources : List SourceInfo
  outcome : BatchOutcome
deriving DecidableEq, Repr

/-- The dict comprehension `{src.url: src for src in batch_sources if
src.url}` followed by `.get(u)` (firecrawl_pattern_analyzer.py, lines
232-234, 239): among sources with a non-empty URL, the last one wins. -/
def source_lookup_by_url (batch_sources : List SourceInfo) (u : String) :
    Option SourceInfo :=
  ((batch_sources.filter fun s => s.url != "").reverse).find? fun s =>
    s.url == u

/-- The article built from one extracted entry
(firecrawl_pattern_analyzer.py, lines 238-268); Python `x or y` on strings
yields `y` when `x` is empty, and `or None` turns `""` into `None`. -/
def article_from_extract (batch_sources : List SourceInfo)
    (extracted : ExtractArticle) : ArticleAnalysis :=
  let src := source_lookup_by_url batch_sources extracted.source_url
  let claims : List Claim :=
    if extracted.key_claims.text ≠ "" then
      [⟨extracted.key_claims.text, extracted.key_claims.modality,
        extracted.key_claims.blame_target, extracted.key_claims.evidence⟩]
    else []
  { url := extracted.source_url
    source_name := src.bind fun s => s.source_name
    publish_date := src.bind fun s => s.publish_date
    source_type := src.map fun s => s.source_type
    title :=
      if extracted.title ≠ "" then some extracted.title
      else src.bind fun s => s.title
    source_country := src.bind fun s => s.source_country
    source_class := src.bind fun s => s.source_class
    key_claims := claims
    narrative_summary := some extracted.narrative_summary
    statistics :=
      if extracted.statistics ≠ "" then some extracted.statistics else none
    stance := extracted.stance
    bias_indicators :=
      match extracted.bias_indication with
      | some b => if b ≠ "" then some b else none
      | none => none }

/-- The articles one batch contributes to `all_articles`
(firecrawl_pattern_analyzer.py, lines 181-275): nothing if the batch has no
non-empty URLs or its job failed at any stage, else one article per entry
of the validated `extract.result`. -/
def batch_articles (b : Batch) : List ArticleAnalysis :=
  let urls := (b.batch_sources.filter fun s => s.url != "").map fun s => s.url
  if urls = [] then []
  else
    match b.outcome with
    | .completed extract_result =>
      extract_result.map (article_from_extract b.batch_sources)
    | _ => []

/-- The batch loop and final check of `run_pattern_analyzer`
(firecrawl_pattern_analyzer.py, lines 179-282), parameterized by the
already-chunked batches and their job outcomes; the `raise RuntimeError`
on line 277 is the `Except.error` case. -/
def run_pattern_analyzer_batches (statement : String)
    (batches : List Batch) : Except String PatternAnalysisResult :=
  let all_articles := (batches.map batch_articles).flatten
  if all_articles = [] then
    .error "Pattern Analyzer could not extract structured data from any article across all batches."
  else
    .ok { statement := statement, analyzed_articles := all_articles }

/-! ## Concrete fixtures used by witnesses and counterexamples -/

/-- A claim whose modality classifies as `affirmation`. -/
def fix_claim : Claim := ⟨"x raised prices", some "reported", none, none⟩

/-- An article with a normal URL. -/
def fix_art_url : ArticleAnalysis :=
  { url := "https://a.example/story"
    source_name := some "Example News"
    publish_date := none
    source_type := none
    title := none
    source_country := none
    source_class := none
    key_claims := [fix_claim]
    narrative_summary := some "x raised prices and consumers protested"
    statistics := none
    stance := none
    bias_indicators := none }

/-- An article with an empty URL and no publisher name: its evidence label
falls back to the literal `unknown_source`. -/
def fix_art_nourl : ArticleAnalysis :=
  { url := ""
    source_name := none
    publish_date := none
    source_type := none
    title := none
    source_country := none
    source_class := none
    key_claims := [fix_claim]
    narrative_summary := some "x raised prices and consumers protested"
    statistics := none
    stance := none
    bias_indicators := none }

/-- A run whose only article has no usable URL. -/
def fix_pa_nourl : PatternAnalysisResult :=
  ⟨"did x raise prices", [fix_art_nourl]⟩

/-- A generated candidate whose premise and consequence both match
`fix_claim`'s text. -/
def fix_items : List GenItem :=
  [.entry "x raised prices" "x raised prices" "suggested by coverage"]

/-- A fact-finder source for batch fixtures. -/
def fix_src (u : String) : SourceInfo :=
  ⟨none, u, none, none, none, "news", none, none, none⟩

/-- An extracted entry for batch fixtures. -/
def fix_extract (u : String) : ExtractArticle :=
  ⟨"title", u, "", "a summary", ⟨"x raised prices", none, some "reported", none⟩,
    none, none⟩

/-- A successful batch contributing one article. -/
def fix_batch_ok (u : String) : Batch :=
  ⟨[fix_src u], .completed [fix_extract u]⟩

/-- A batch whose polling timed out. -/
def fix_batch_timeout : Batch := ⟨[fix_src "https://b.example"], .pollTimeout⟩

/-! ## Theorems -/

/-- Claim C6: similarity is asymmetric coverage, not Jaccard.  For non-empty
word lists it equals the intersection cardinality divided by the cardinality
of the candidate's (first argument's) word set; a candidate fully contained
in the claim scores exactly 1; a zero-overlap pair scores 0 even when both
sides are non-empty; and similarity is not symmetric, witnessed by
`["x"]` against `["x", "y"]`. -/
theorem jaccard_is_asymmetric_coverage (a b : List String)
    (ha : a ≠ []) (hb : b ≠ []) :
    _jaccard_similarity a b =
      ((a.dedup.filter fun w => decide (w ∈ b.dedup)).length : ℚ) /
        (a.dedup.length : ℚ) ∧
    ((∀ w ∈ a, w ∈ b) → _jaccard_similarity a b = 1) ∧
    ((∀ w ∈ a, w ∉ b) → _jaccard_similarity a b = 0) ∧
    _jaccard_similarity ["x"] ["x", "y"] = 1 ∧
    _jaccard_similarity ["x", "y"] ["x"] ≠ 1 ∧
    _jaccard_similarity ["x"] ["x", "y"] ≠
      _jaccard_similarity ["x", "y"] ["x"] := by
  have hcard : a.dedup.length ≠ 0 := by
    simp only [ne_eq, List.length_eq_zero, List.dedup_eq_nil]
    exact ha
  have hmain : _jaccard_similarity a b =
      ((a.dedup.filter fun w => decide (w ∈ b.dedup)).length : ℚ) /
        (a.dedup.length : ℚ) := by
    show (if a = [] ∨ b = [] then (0 : ℚ)
      else if (a.dedup.filter fun w => decide (w ∈ b.dedup)).length = 0 then 0
      else mkRat (a.dedup.filter fun w => decide (w ∈ b.dedup)).length
        a.dedup.length) = _
    rw [if_neg (by simp [ha, hb])]
    by_cases h0 : (a.dedup.filter fun w => decide (w ∈ b.dedup)).length = 0
    · rw [if_pos h0, h0]
      simp
    · rw [if_neg h0, Rat.mkRat_eq_div]
      simp
  refine ⟨hmain, ?_, ?_, by decide, by decide, by decide⟩
  · intro hsub
    have hfil : (a.dedup.filter fun w => decide (w ∈ b.dedup)) = a.dedup := by
      apply List.filter_eq_self.mpr
      intro w hw
      simpa using List.mem_dedup.mpr (hsub w (List.mem_dedup.mp hw))
    rw [hmain, hfil, div_self (by exact_mod_cast hcard)]
  · intro hdisj
    have hfil : (a.dedup.filter fun w => decide (w ∈ b.dedup)) = [] := by
      apply List.filter_eq_nil_iff.mpr
      intro w hw
      simpa using hdisj w (List.mem_dedup.mp hw)
    rw [hmain, hfil]
    simp

/-- Witness for C6: the theorem applied to the concrete non-empty lists
`["x"]` and `["x", "y"]`. -/
theorem jaccard_is_asymmetric_coverage_witness :
    (["x"] : List String) ≠ [] ∧ (["x", "y"] : List String) ≠ [] ∧
    _jaccard_similarity ["x"] ["x", "y"] =
      (((["x"] : List String).dedup.filter fun w =>
        decide (w ∈ (["x", "y"] : List String).dedup)).length : ℚ) /
        ((["x"] : List String).dedup.length : ℚ) :=
  ⟨by decide, by decide,
    (jaccard_is_asymmetric_coverage ["x"] ["x", "y"] (by decide) (by decide)).1⟩

/-- Claim C2: the verdict assigner maps every input to exactly one of the
four enumerated verdicts, with exact branch precedence: more than one
supporter and no refuters gives `consistent`; exactly one supporter and no
refuters gives `partially supported`; any refuter gives `contradicted`
regardless of how many supporters there are; otherwise the premise vote
comparison decides between `contradicted` and `speculative`.  Each branch
also fixes the assessment text. -/
theorem assign_verdict_policy (s r : List String) (v : ModalityVotes) :
    ((assign_verdict s r v).1 = "consistent" ∨
      (assign_verdict s r v).1 = "partially supported" ∨
      (assign_verdict s r v).1 = "contradicted" ∨
      (assign_verdict s r v).1 = "speculative") ∧
    (1 < s.length ∧ r = [] → assign_verdict s r v =
      ("consistent",
        "well supported by multiple sources with no clear refutations")) ∧
    (s.length = 1 ∧ r = [] → assign_verdict s r v =
      ("partially supported",
        "weakly supported (single-source implication)")) ∧
    (r ≠ [] → assign_verdict s r v =
      ("contradicted",
        "contested: at least one source affirms the premise but denies the consequence")) ∧
    (s = [] ∧ r = [] ∧ v.affirmation < v.denial → assign_verdict s r v =
      ("contradicted",
        "premise itself appears more often denied than affirmed")) ∧
    (s = [] ∧ r = [] ∧ ¬v.affirmation < v.denial → assign_verdict s r v =
      ("speculative",
        "inferred only by LLM, with no strong article-level corroboration")) := by
  refine ⟨?_, ?_, ?_, ?_, ?_, ?_⟩
  · unfold assign_verdict
    split_ifs <;> simp
  · rintro ⟨h1, h2⟩
    simp [assign_verdict, h1, h2]
  · rintro ⟨h1, h2⟩
    simp [assign_verdict, h1, h2]
  · intro h
    simp [assign_verdict, h]
  · rintro ⟨h1, h2, h3⟩
    simp [assign_verdict, h1, h2, h3]
  · rintro ⟨h1, h2, h3⟩
    simp [assign_verdict, h1, h2, h3]

/-- Claim C3: when one source is processed for a (premise, consequence)
pair, its label is appended to the supporting list iff its premise modality
is `affirmation` and its consequence modality is `affirmation` or
`speculation`; it is appended to the refuting list iff its premise modality
is `affirmation` and its consequence modality is `denial`; the two
conditions are mutually exclusive, so one source never extends both lists. -/
theorem aggregate_membership_exclusive (premise_text conseq_text : String)
    (st : AggState) (art : ArticleAnalysis) :
    ((aggregate_article premise_text conseq_text st art).supporting_sources =
      if _check_claim_support art.key_claims premise_text
            default_similarity_threshold = some "affirmation" ∧
          (_check_claim_support art.key_claims conseq_text
            default_similarity_threshold = some "affirmation" ∨
           _check_claim_support art.key_claims conseq_text
            default_similarity_threshold = some "speculation") then
        st.supporting_sources ++ [src_label art]
      else st.supporting_sources) ∧
    ((aggregate_article premise_text conseq_text st art).refuting_sources =
      if _check_claim_support art.key_claims premise_text
            default_similarity_threshold = some "affirmation" ∧
          _check_claim_support art.key_claims conseq_text
            default_similarity_threshold = some "denial" then
        st.refuting_sources ++ [src_label art]
      else st.refuting_sources) ∧
    ¬((_check_claim_support art.key_claims premise_text
          default_similarity_threshold = some "affirmation" ∧
        (_check_claim_support art.key_claims conseq_text
          default_similarity_threshold = some "affirmation" ∨
         _check_claim_support art.key_claims conseq_text
          default_similarity_threshold = some "speculation")) ∧
      (_check_claim_support art.key_claims premise_text
          default_similarity_threshold = some "affirmation" ∧
        _check_claim_support art.key_claims conseq_text
          default_similarity_threshold = some "denial")) ∧
    ¬((aggregate_article premise_text conseq_text st art).supporting_sources ≠
        st.supporting_sources ∧
      (aggregate_article premise_text conseq_text st art).refuting_sources ≠
        st.refuting_sources) := by
  have hsupp : (aggregate_article premise_text conseq_text st art).supporting_sources =
      if _check_claim_support art.key_claims premise_text
            default_similarity_threshold = some "affirmation" ∧
          (_check_claim_support art.key_claims conseq_text
            default_similarity_threshold = some "affirmation" ∨
           _check_claim_support art.key_claims conseq_text
            default_similarity_threshold = some "speculation") then
        st.supporting_sources ++ [src_label art]
      else st.supporting_sources := rfl
  have hrefu : (aggregate_article premise_text conseq_text st art).refuting_sources =
      if _check_claim_support art.key_claims premise_text
            default_similarity_threshold = some "affirmation" ∧
          _check_claim_support art.key_claims conseq_text
            default_similarity_threshold = some "denial" then
        st.refuting_sources ++ [src_label art]
      else st.refuting_sources := rfl
  have hexcl : ¬((_check_claim_support art.key_claims premise_text
          default_similarity_threshold = some "affirmation" ∧
        (_check_claim_support art.key_claims conseq_text
          default_similarity_threshold = some "affirmation" ∨
         _check_claim_support art.key_claims conseq_text
          default_similarity_threshold = some "speculation")) ∧
      (_check_claim_support art.key_claims premise_text
          default_similarity_threshold = some "affirmation" ∧
        _check_claim_support art.key_claims conseq_text
          default_similarity_threshold = some "denial")) := by
    rintro ⟨⟨-, hc⟩, ⟨-, hd⟩⟩
    rcases hc with hc | hc <;> rw [hd] at hc <;> simp at hc
  refine ⟨hsupp, hrefu, hexcl, ?_⟩
  rintro ⟨hs, hr⟩
  by_cases hS : _check_claim_support art.key_claims premise_text
        default_similarity_threshold = some "affirmation" ∧
      (_check_claim_support art.key_claims conseq_text
        default_similarity_threshold = some "affirmation" ∨
       _check_claim_support art.key_claims conseq_text
        default_similarity_threshold = some "speculation")
  · have : (aggregate_article premise_text conseq_text st art).refuting_sources =
        st.refuting_sources := by
      rw [hrefu, if_neg (fun hR => hexcl ⟨hS, hR⟩)]
    exact hr this
  · have : (aggregate_article premise_text conseq_text st art).supporting_sources =
        st.supporting_sources := by
      rw [hsupp, if_neg hS]
    exact hs this

/-- Witness for C3: the theorem applied at a concrete source that affirms
both premise and consequence. -/
theorem aggregate_membership_exclusive_witness :
    ¬((aggregate_article "x raised prices" "x raised prices" initAgg
        fix_art_url).supporting_sources ≠ initAgg.supporting_sources ∧
      (aggregate_article "x raised prices" "x raised prices" initAgg
        fix_art_url).refuting_sources ≠ initAgg.refuting_sources) :=
  (aggregate_membership_exclusive "x raised prices" "x raised prices" initAgg
    fix_art_url).2.2.2

/-- Counterexample for C5: the claim says an empty or missing modality
defaults to `speculation`, but `_classify_modality` returns `None` for the
empty string and for `None` (Python `if not modality: return None`). -/
theorem classify_modality_empty_counterexample :
    _classify_modality (some "") ≠ some "speculation" ∧
    _classify_modality (some "") = none ∧
    _classify_modality none = none := by
  refine ⟨by decide, by decide, rfl⟩

/-- Claim C5 as amended: keyword matching on the lowercased modality picks
`denial` first, then `affirmation`; any other NON-EMPTY modality — whether
or not it contains a speculation keyword — yields `speculation`; but an
empty or missing modality yields `None` (the claim is then skipped by the
matcher), not `speculation`. -/
theorem classify_modality_amended (mo : Option String) :
    (_classify_modality mo = none ↔ mo = none ∨ mo = some "") ∧
    (∀ m, mo = some m → m ≠ "" →
      _classify_modality mo = some
        (if denial_keywords.any
            (fun k => strContains (String.mk (m.data.map Char.toLower)) k) then
          "denial"
         else if affirmation_keywords.any
            (fun k => strContains (String.mk (m.data.map Char.toLower)) k) then
          "affirmation"
         else "speculation")) := by
  refine ⟨?_, ?_⟩
  · cases mo with
    | none => simp [_classify_modality]
    | some m =>
      by_cases hm : m = ""
      · simp [_classify_modality, hm]
      · simp only [_classify_modality, if_neg hm]
        split_ifs <;> simp [hm]
  · rintro m rfl hne
    simp only [_classify_modality, if_neg hne]
    split_ifs <;> rfl

/-- Witness for C5 (amended): applied at the concrete non-empty modality
`"maybe"`. -/
theorem classify_modality_amended_witness :
    ("maybe" : String) ≠ "" ∧
    _classify_modality (some "maybe") = some
      (if denial_keywords.any
          (fun k => strContains (String.mk ("maybe".data.map Char.toLower)) k) then
        "denial"
       else if affirmation_keywords.any
          (fun k => strContains (String.mk ("maybe".data.map Char.toLower)) k) then
        "affirmation"
       else "speculation") :=
  ⟨by decide,
    (classify_modality_amended (some "maybe")).2 "maybe" rfl (by decide)⟩

/-- Claim C7: when the external generation call raises, returns unparseable
text, or parses to a non-list value, the candidate generator returns the
empty list instead of raising, and the chain-building tool then returns the
payload `{statement, implication_chains: []}`. -/
theorem generation_failure_degrades (pa : PatternAnalysisResult)
    (api_key : Option String) (llm : GenOutcome)
    (h : llm = .callError ∨ llm = .unparseable ∨ llm = .nonList) :
    _generate_implication_candidates pa api_key llm = [] ∧
    build_implication_chains_pipeline pa api_key llm =
      { statement := pa.statement, implication_chains := [] } := by
  have hgen : _generate_implication_candidates pa api_key llm = [] := by
    rcases h with rfl | rfl | rfl <;>
      rcases api_key with _ | k <;>
        simp only [_generate_implication_candidates] <;>
        split_ifs <;> rfl
  refine ⟨hgen, ?_⟩
  rw [build_implication_chains_pipeline, hgen]
  rfl

/-- Witness for C7: the concrete unparseable outcome. -/
theorem generation_failure_degrades_witness :
    _generate_implication_candidates fix_pa_nourl (some "key")
      .unparseable = [] ∧
    build_implication_chains_pipeline fix_pa_nourl (some "key")
      .unparseable =
      { statement := fix_pa_nourl.statement, implication_chains := [] } :=
  generation_failure_degrades fix_pa_nourl (some "key") .unparseable
    (Or.inr (Or.inl rfl))

/-- Claim C10: `PatternAnalysisMemory` keys records by a hash of the
whitespace-stripped statement, so after `save_result r`,
`get_result_by_statement s` returns `r` for every `s` that strips to
`r.statement`'s strip; and saving a second result whose statement is equal
modulo leading/trailing whitespace overwrites the first (last write wins). -/
theorem pattern_memory_keying (h : String → String) (store : PatternStore)
    (r r2 : PatternAnalysisResult) (s : String)
    (hs : pyStrip s = pyStrip r.statement) :
    PatternAnalysisMemory.get_result_by_statement h
      (PatternAnalysisMemory.save_result h store r) s = some r ∧
    (pyStrip r2.statement = pyStrip r.statement →
      PatternAnalysisMemory.get_result_by_statement h
        (PatternAnalysisMemory.save_result h
          (PatternAnalysisMemory.save_result h store r) r2) s = some r2) := by
  have hkey : PatternAnalysisMemory.statement_key h s =
      PatternAnalysisMemory.statement_key h r.statement := by
    unfold PatternAnalysisMemory.statement_key
    rw [hs]
  constructor
  · simp [PatternAnalysisMemory.get_result_by_statement,
      PatternAnalysisMemory.save_result, hkey]
  · intro h2
    have hkey2 : PatternAnalysisMemory.statement_key h s =
        PatternAnalysisMemory.statement_key h r2.statement := by
      unfold PatternAnalysisMemory.statement_key
      rw [hs, ← h2]
    simp [PatternAnalysisMemory.get_result_by_statement,
      PatternAnalysisMemory.save_result, hkey2]

/-- Witness for C10: a concrete store, hash and statement differing only by
surrounding whitespace. -/
theorem pattern_memory_keying_witness :
    pyStrip "x raised prices" = pyStrip "  x raised prices  " ∧
    PatternAnalysisMemory.get_result_by_statement (fun x => x)
      (PatternAnalysisMemory.save_result (fun x => x) (fun _ => none)
        ⟨"  x raised prices  ", []⟩) "x raised prices" =
      some ⟨"  x raised prices  ", []⟩ :=
  ⟨by decide,
    (pattern_memory_keying (fun x => x) (fun _ => none)
      ⟨"  x raised prices  ", []⟩ ⟨"ignored", []⟩ "x raised prices"
      (by decide)).1⟩

/-- Claim C8: a batch whose extraction fails at any stage contributes zero
articles and its failure does not affect the other batches' contributions,
and the run errors with the fatal message iff no batch contributes any
article. -/
theorem batch_failure_isolation (statement : String) (l1 l2 : List Batch)
    (bf : Batch) (hf : bf.outcome.isFailure = true) :
    batch_articles bf = [] ∧
    run_pattern_analyzer_batches statement (l1 ++ bf :: l2) =
      run_pattern_analyzer_batches statement (l1 ++ l2) ∧
    (∀ batches : List Batch,
      (run_pattern_analyzer_batches statement batches = Except.error
        "Pattern Analyzer could not extract structured data from any article across all batches.")
      ↔ ∀ b ∈ batches, batch_articles b = []) := by
  obtain ⟨srcs, out⟩ := bf
  have hbf : batch_articles ⟨srcs, out⟩ = [] := by
    cases out <;> simp [BatchOutcome.isFailure] at hf <;>
      simp [batch_articles]
  refine ⟨hbf, ?_, ?_⟩
  · simp [run_pattern_analyzer_batches, hbf, List.map_append,
      List.flatten_append]
  · intro batches
    by_cases hall : (batches.map batch_articles).flatten = []
    · have hmem := List.flatten_eq_nil_iff.mp hall
      constructor
      · intro _ b hb
        exact hmem _ (List.mem_map_of_mem _ hb)
      · intro _
        simp [run_pattern_analyzer_batches, hall]
    · constructor
      · intro he
        exfalso
        rw [run_pattern_analyzer_batches] at he
        simp only [if_neg hall] at he
        cases he
      · intro hforall
        exfalso
        apply hall
        apply List.flatten_eq_nil_iff.mpr
        intro x hx
        obtain ⟨b, hb, rfl⟩ := List.mem_map.mp hx
        exact hforall b hb

/-- Witness for C8: three batches, the middle one timed out; the run is
unaffected by the failed batch. -/
theorem batch_failure_isolation_witness :
    batch_articles fix_batch_timeout = [] ∧
    run_pattern_analyzer_batches "s"
      ([fix_batch_ok "https://a.example"] ++ fix_batch_timeout ::
        [fix_batch_ok "https://c.example"]) =
    run_pattern_analyzer_batches "s"
      ([fix_batch_ok "https://a.example"] ++ [fix_batch_ok "https://c.example"]) :=
  ⟨(batch_failure_isolation "s" [fix_batch_ok "https://a.example"]
      [fix_batch_ok "https://c.example"] fix_batch_timeout rfl).1,
    (batch_failure_isolation "s" [fix_batch_ok "https://a.example"]
      [fix_batch_ok "https://c.example"] fix_batch_timeout rfl).2.1⟩

/-- The builder emits exactly one chain per candidate, in order. -/
theorem build_chains_from_length (arts : List ArticleAnalysis) (k : Nat)
    (cs : List Candidate) : (build_chains_from arts k cs).length = cs.length := by
  induction cs generalizing k with
  | nil => rfl
  | cons c rest ih => simp [build_chains_from, ih]

/-- The i-th emitted chain is built from the i-th candidate with a 1-based
index offset by the starting index. -/
theorem build_chains_from_getElem (arts : List ArticleAnalysis) (k : Nat)
    (cs : List Candidate) (i : Nat) (h : i < cs.length) :
    (build_chains_from arts k cs)[i]? =
      some (build_chain arts (k + i) (cs.get ⟨i, h⟩)) := by
  induction cs generalizing k i with
  | nil => cases h
  | cons c rest ih =>
    cases i with
    | zero => simp [build_chains_from]
    | succ n =>
      have hn : n < rest.length := by simpa using h
      have hadd : k + (n + 1) = (k + 1) + n := by omega
      simp only [build_chains_from, List.getElem?_cons_succ, hadd]
      exact ih (k + 1) n hn

/-- Claim C9: `build_implication_chains_tool` emits one chain per accepted
candidate, in candidate order; each chain holds exactly one step whose
premise and conclusion are the candidate's texts verbatim, under the
1-based description `Implication chain {index}: {premise} -> {consequence}`. -/
theorem chains_mirror_candidates (pa : PatternAnalysisResult)
    (candidates : List Candidate) :
    (build_implication_chains_tool pa candidates).implication_chains.length =
      candidates.length ∧
    ∀ i, ∀ h : i < candidates.length,
      (build_implication_chains_tool pa candidates).implication_chains[i]? =
        some (build_chain pa.analyzed_articles (i + 1)
          (candidates.get ⟨i, h⟩)) ∧
      (build_chain pa.analyzed_articles (i + 1)
          (candidates.get ⟨i, h⟩)).steps.map
          (fun s => (s.premise, s.conclusion)) =
        [((candidates.get ⟨i, h⟩).premise,
          (candidates.get ⟨i, h⟩).consequence)] ∧
      (build_chain pa.analyzed_articles (i + 1)
          (candidates.get ⟨i, h⟩)).description =
        "Implication chain " ++ toString (i + 1) ++ ": " ++
          (candidates.get ⟨i, h⟩).premise ++ " -> " ++
          (candidates.get ⟨i, h⟩).consequence := by
  by_cases hc : candidates = []
  · subst hc
    refine ⟨rfl, ?_⟩
    intro i h
    cases h
  · have htool : (build_implication_chains_tool pa candidates).implication_chains =
        build_chains_from pa.analyzed_articles 1 candidates := by
      simp [build_implication_chains_tool, hc]
    refine ⟨by rw [htool]; exact build_chains_from_length _ _ _, ?_⟩
    intro i h
    have hadd : 1 + i = i + 1 := by omega
    refine ⟨?_, rfl, rfl⟩
    rw [htool, build_chains_from_getElem pa.analyzed_articles 1 candidates i h,
      hadd]

/-- Witness for C9: one concrete candidate, inspected at index 0. -/
theorem chains_mirror_candidates_witness :
    0 < ([(⟨"p", "q", "why"⟩ : Candidate)] : List Candidate).length ∧
    ((build_implication_chains_tool fix_pa_nourl
        [⟨"p", "q", "why"⟩]).implication_chains[0]? =
      some (build_chain fix_pa_nourl.analyzed_articles 1 ⟨"p", "q", "why"⟩) ∧
    (build_chain fix_pa_nourl.analyzed_articles 1
        ⟨"p", "q", "why"⟩).steps.map (fun s => (s.premise, s.conclusion)) =
      [("p", "q")] ∧
    (build_chain fix_pa_nourl.analyzed_articles 1
        ⟨"p", "q", "why"⟩).description =
      "Implication chain " ++ toString 1 ++ ": " ++ "p" ++ " -> " ++ "q") :=
  ⟨by decide,
    (chains_mirror_candidates fix_pa_nourl [⟨"p", "q", "why"⟩]).2 0
      (by decide)⟩

/-- An ineligible claim (below threshold, or unclassifiable modality)
leaves the matcher's fold state unchanged. -/
theorem matchStep_skip (tw : List String) (θ : ℚ) (acc : ℚ × Option String)
    (c : Claim) (h : eligibleClaim tw θ c = false) :
    matchStep tw θ acc c = acc := by
  simp only [eligibleClaim, Bool.and_eq_false_iff,
    decide_eq_false_iff_not] at h
  rcases h with h | h
  · simp [matchStep, h]
  · have hn : _classify_modality c.modality = none := by
      cases hcm : _classify_modality c.modality
      · rfl
      · rw [hcm] at h
        cases h
    simp only [matchStep]
    split_ifs
    · rw [hn]
    · rfl

/-- The matcher's fold only ever consults eligible claims. -/
theorem foldl_matchStep_filter (tw : List String) (θ : ℚ)
    (cs : List Claim) (acc : ℚ × Option String) :
    cs.foldl (matchStep tw θ) acc =
      (cs.filter (eligibleClaim tw θ)).foldl (matchStep tw θ) acc := by
  induction cs generalizing acc with
  | nil => rfl
  | cons c rest ih =>
    by_cases he : eligibleClaim tw θ c = true
    · simp only [List.foldl_cons, List.filter_cons, he, if_pos]
      exact ih (matchStep tw θ acc c)
    · have he' : eligibleClaim tw θ c = false := by
        simpa using he
      simp only [List.foldl_cons, List.filter_cons, he',
        matchStep_skip tw θ acc c he']
      exact ih acc

/-- A leftmost maximum is an element of the list. -/
theorem firstMaxBySim_mem (tw : List String) (cs : List Claim) (y : Claim)
    (h : firstMaxBySim tw cs = some y) : y ∈ cs := by
  induction cs with
  | nil => cases h
  | cons c rest ih =>
    rcases hfm : firstMaxBySim tw rest with _ | z <;>
      simp only [firstMaxBySim, hfm] at h
    · obtain rfl := Option.some.inj h
      exact List.mem_cons_self c rest
    · split_ifs at h with hcz
      · obtain rfl := Option.some.inj h
        exact List.mem_cons_of_mem c (ih hfm)
      · obtain rfl := Option.some.inj h
        exact List.mem_cons_self c rest

/-- On a list of eligible claims, the matcher's fold returns the classified
modality of the leftmost claim of maximal similarity — provided it beats
the incoming best score — and the incoming best modality otherwise. -/
theorem foldl_matchStep_firstMax (tw : List String) (θ : ℚ)
    (cs : List Claim) (hall : ∀ c ∈ cs, eligibleClaim tw θ c = true)
    (bs : ℚ) (bm : Option String) :
    (cs.foldl (matchStep tw θ) (bs, bm)).2 =
      (match firstMaxBySim tw cs with
       | none => bm
       | some y =>
         if bs < simOf tw y then _classify_modality y.modality else bm) := by
  induction cs generalizing bs bm with
  | nil => rfl
  | cons c rest ih =>
    have hc := hall c (List.mem_cons_self c rest)
    simp only [eligibleClaim, Bool.and_eq_true, decide_eq_true_eq] at hc
    obtain ⟨hθ, hcls⟩ := hc
    obtain ⟨m, hm⟩ := Option.isSome_iff_exists.mp hcls
    have hrest : ∀ c' ∈ rest, eligibleClaim tw θ c' = true := fun c' hc' =>
      hall c' (List.mem_cons_of_mem c hc')
    by_cases hbs : bs < simOf tw c
    · have hstep : matchStep tw θ (bs, bm) c = (simOf tw c, some m) := by
        simp [matchStep, hθ, hbs, hm]
      rw [List.foldl_cons, hstep, ih hrest]
      rcases hfm : firstMaxBySim tw rest with _ | y
      · simp [firstMaxBySim, hfm, hbs, hm]
      · by_cases hcy : simOf tw c < simOf tw y
        · have hby : bs < simOf tw y := hbs.trans hcy
          simp [firstMaxBySim, hfm, hcy, hby]
        · simp [firstMaxBySim, hfm, hcy, hbs, hm]
    · have hstep : matchStep tw θ (bs, bm) c = (bs, bm) := by
        have : ¬(θ ≤ simOf tw c ∧ bs < simOf tw c) := fun hx => hbs hx.2
        simp [matchStep, this]
      rw [List.foldl_cons, hstep, ih hrest]
      rcases hfm : firstMaxBySim tw rest with _ | y
      · simp [firstMaxBySim, hfm, hbs]
      · by_cases hcy : simOf tw c < simOf tw y
        · simp [firstMaxBySim, hfm, hcy]
        · have hny : ¬bs < simOf tw y := by
            intro hby
            exact hbs (lt_of_lt_of_le hby (le_of_not_lt hcy))
          simp [firstMaxBySim, hfm, hcy, hbs, hny]

/-- Counterexample for C4: the candidate is non-empty and a claim clears
the 0.3 threshold (with similarity 1), yet the matcher returns `None`,
because that claim's modality field is missing — contradicting the claim's
"returns none if and only if no claim clears the threshold or the
candidate text is empty". -/
theorem check_claim_support_counterexample :
    _normalize_text "price rise confirmed" ≠ [] ∧
    default_similarity_threshold ≤
      _jaccard_similarity (_normalize_text "price rise confirmed")
        (_normalize_text "price rise confirmed") ∧
    _check_claim_support [⟨"price rise confirmed", none, none, none⟩]
      "price rise confirmed" default_similarity_threshold = none :=
  ⟨by decide, by decide, by decide⟩

/-- Claim C4 as amended: the matcher returns the classified modality of the
first claim attaining the maximal similarity among the claims that BOTH
clear the 0.3 threshold AND carry a classifiable (non-empty) modality;
ties are broken by encounter order via the strictly-greater comparison; it
returns `None` iff the candidate normalizes to no words or no such eligible
claim exists. -/
theorem check_claim_support_selects_max (key_claims : List Claim)
    (target_text : String) :
    _check_claim_support key_claims target_text default_similarity_threshold =
      (if _normalize_text target_text = [] then none
       else
        match firstMaxBySim (_normalize_text target_text)
          (key_claims.filter
            (eligibleClaim (_normalize_text target_text)
              default_similarity_threshold)) with
        | none => none
        | some y => _classify_modality y.modality) := by
  by_cases htw : _normalize_text target_text = []
  · simp [_check_claim_support, htw]
  · rw [if_neg htw]
    simp only [_check_claim_support, if_neg htw]
    rw [foldl_matchStep_filter, foldl_matchStep_firstMax _ _ _
      (fun c hc => (List.mem_filter.mp hc).2)]
    rcases hfm : firstMaxBySim (_normalize_text target_text)
      (key_claims.filter
        (eligibleClaim (_normalize_text target_text)
          default_similarity_threshold)) with _ | y
    · rfl
    · have hy := firstMaxBySim_mem _ _ _ hfm
      have hel := (List.mem_filter.mp hy).2
      simp only [eligibleClaim, Bool.and_eq_true, decide_eq_true_eq] at hel
      have hpos : (0 : ℚ) < simOf (_normalize_text target_text) y :=
        lt_of_lt_of_le (by decide) hel.1
      simp [hpos]

/-- Claim C1 (code bug, evaluated at the failing input): an article with an
empty URL and no publisher name gets the literal label `unknown_source`,
`build_implication_chains_tool` puts that label into the step's supporting
list, and `run_critic` persists the chains to `CriticMemory` verbatim — no
validation layer filters the label out, so the final persisted chain set
violates the closed-world URL invariant. -/
theorem persisted_chains_contain_unknown_source :
    "unknown_source" ∈ ((run_critic fix_pa_nourl (some "key")
        (.parsedList fix_items)).implication_chains.flatMap fun ch =>
      ch.steps.flatMap fun st => st.supporting_sources) ∧
    (∀ art ∈ fix_pa_nourl.analyzed_articles, art.url ≠ "unknown_source") ∧
    CriticMemory.save_result
        (run_critic fix_pa_nourl (some "key") (.parsedList fix_items)) =
      [(fix_pa_nourl.statement,
        run_critic fix_pa_nourl (some "key") (.parsedList fix_items))] :=
  ⟨by decide, by decide, rfl⟩

/-- Witness for C2: a refuter present together with three supporters yields
`contradicted`, by branch precedence. -/
theorem assign_verdict_policy_witness :
    (["a", "b", "c"] : List String) ≠ [] ∧
    assign_verdict ["a", "b", "c"] ["d"] ⟨3, 0, 0⟩ =
      ("contradicted",
        "contested: at least one source affirms the premise but denies the consequence") :=
  ⟨by decide,
    (assign_verdict_policy ["a", "b", "c"] ["d"] ⟨3, 0, 0⟩).2.2.2.1
      (by decide)⟩

end TruthLens
